import Mathlib

/-!
Verification of the dialog-builder module `ui-dialog-variations/main.js`.

The module consists of one builder, `notice`, which assembles the markup of a
modal `<dialog>` from a description (title, icon, messages, optional prompt
placeholder, buttons), wires the button and form handlers, shows the dialog
modally, and resolves with `{which, value}`.  Six thin wrappers (`alert`,
`warning`, `error`, `confirm`, `prompt`, ...) call it with fixed shapes.

The embedding below translates that code: JS strings become `String`, a JS
value that may be `undefined` becomes an `Option`, the host-dependent steps
(manifest lookup, modal display) become explicit parameters describing their
outcome, and the mutable `okButtonIdx` / `cancelButtonIdx` variables of the
wiring loop become accumulators of a fold.
-/

set_option autoImplicit false

namespace DialogVariations

/-- A button description as passed to `notice`: `{label, type, variant}`.
A `none` field models a JS `undefined` field. -/
structure Button where
  label : String
  type : Option String
  variant : Option String
deriving DecidableEq

/-- JS truthiness of an optional string: `undefined` and `""` are falsy,
every other string is truthy. -/
def jsTruthy : Option String → Bool
  | none => false
  | some s => s != ""

/-- A JS `undefined` interpolated into a template literal prints as the text
`undefined`; a present string prints as itself. -/
def optField : Option String → String
  | none => "undefined"
  | some s => s

/-- The default of the `buttons` parameter of `notice` (lines 28-30):
a single Close button, `variant: "cta"`, `type: "submit"`.  In JS this
default applies exactly when the field is `undefined` (absent). -/
def defaultButtons : List Button :=
  [{ label := "Close", variant := some "cta", type := some "submit" }]

/-- Outcome of the host manifest lookup performed for the `app-icon`
sentinel (lines 35-52): the lookup may throw at any step (the source
catches and ignores this), may complete without a usable `icon` field,
or may yield an icon path from the manifest. -/
inductive ManifestResult where
  | failure
  | noIcon
  | icon (name : String)
deriving DecidableEq

/-- The `app-icon` enrichment step of `notice` (lines 35-52).  When the icon
argument is the sentinel `"app-icon"`, a truthy icon name found in the
manifest replaces it and the icon size becomes 32; in every other case -
including a thrown and swallowed error - `icon` and `iconSize` are left
unchanged. -/
def resolveIcon (icon : Option String) (iconSize : Nat) (env : ManifestResult) :
    Option String × Nat :=
  if icon = some "app-icon" then
    match env with
    | .icon name => if name != "" then (some name, 32) else (icon, iconSize)
    | _ => (icon, iconSize)
  else
    (icon, iconSize)

/-- One entry of `msgs` (line 79): if the first four characters are `http`
the message renders as an anchor whose `href` and text are the message,
otherwise as a paragraph holding the message. -/
def renderMsg (msg : String) : String :=
  if msg.data.take 4 = "http".data then
    "<a href=\"" ++ msg ++ "\">" ++ msg ++ "</a>"
  else
    "<p>" ++ msg ++ "</p>"

/-- JS `Array.prototype.join("")`: concatenation with no separator, used for
the mapped messages (line 79). -/
def jsJoinEmpty : List String → String
  | [] => ""
  | s :: rest => s ++ jsJoinEmpty rest

/-- JS `Array.prototype.toString`, i.e. `join(",")`: the conversion applied
when an array is interpolated into a template literal, as happens to the
mapped buttons array (line 91). -/
def jsArrayToString : List String → String
  | [] => ""
  | [s] => s
  | s :: rest => s ++ "," ++ jsArrayToString rest

/-- The rendered messages block: `msgs.map(...).join("")` (line 79). -/
def msgsHTML (msgs : List String) : String :=
  jsJoinEmpty (msgs.map renderMsg)

/-- One rendered button (line 91):
`<button id="btn${idx}" type="${type}" uxp-variant="${variant}">${label}</button>`. -/
def renderButton (idx : Nat) (b : Button) : String :=
  "<button id=\"btn" ++ toString idx ++ "\" type=\"" ++ optField b.type ++
    "\" uxp-variant=\"" ++ optField b.variant ++ "\">" ++ b.label ++ "</button>"

/-- The footer interpolation `${buttons.map(...)}` (line 91): the mapped
array is interpolated without an explicit `join`, so JS converts it with
`toString`, i.e. joins the button strings with `","`. -/
def footerButtonsHTML (buttons : List Button) : String :=
  jsArrayToString (buttons.enum.map fun p => renderButton p.1 p.2)

/-- The header icon interpolation (line 76):
an `<img src="${icon}" />` element when `icon` is truthy, nothing otherwise. -/
def headerIconHTML (icon : Option String) : String :=
  if jsTruthy icon then "<img src=\"" ++ optField icon ++ "\" />" else ""

/-- The optional prompt block (lines 81-89): a labelled text input whose
placeholder is the prompt, when `prompt` is truthy. -/
def promptHTML (prompt : Option String) : String :=
  if jsTruthy prompt then
    "\n                <label>\n                    <input type=\"text\" id=\"prompt\" placeholder=\""
      ++ optField prompt ++ "\" />\n                </label>\n            "
  else ""

/-- The `<style>` block of the template (lines 56-72). -/
def styleHTML (width iconSize : Nat) (isError : Bool) : String :=
  "<style>\n    form \x7b\n        width: " ++ toString width ++
    "px;\n    \x7d\n    form h1 \x7b\n        display: flex;\n        flex-direction: row;\n        justify-content: space-between;\n        align-items: center;\n        "
    ++ (if isError then "color: #D7373F" else "") ++
    "\n    \x7d\n    form h1 img \x7b\n        width: " ++ toString iconSize ++
    "px;\n        height: " ++ toString iconSize ++ "px;\n        flex: 0 0 " ++
    toString iconSize ++ "px;\n    \x7d\n</style>"

/-- The full `dialog.innerHTML` template (lines 55-94), assembled from the
resolved icon, the message list, the optional prompt block and the footer. -/
def dialogHTML (title : String) (icon : Option String) (msgs : List String)
    (prompt : Option String) (isError : Bool) (buttons : List Button)
    (width iconSize : Nat) : String :=
  "\n" ++ styleHTML width iconSize isError ++
    "\n<form method=\"dialog\">\n    <h1>\n        <span>" ++ title ++
    "</span>\n        " ++ headerIconHTML icon ++
    "\n    </h1>\n    " ++ msgsHTML msgs ++
    "\n    " ++ promptHTML prompt ++
    "\n    <footer>\n        " ++ footerButtonsHTML buttons ++
    "\n    </footer>\n</form>\n    "

/-- The test of line 102: a button sets `okButtonIdx` when its `type` is
`"submit"` or its `variant` is `"cta"`. -/
def isOkButton (b : Button) : Bool :=
  b.type == some "submit" || b.variant == some "cta"

/-- The test of line 105: a button sets `cancelButtonIdx` when its `type`
is `"reset"`. -/
def isCancelButton (b : Button) : Bool :=
  b.type == some "reset"

/-- The wiring loop `buttons.forEach(...)` of lines 100-112, as a fold:
`ok` and `cancel` thread the mutable `okButtonIdx` and `cancelButtonIdx`
(both start at -1 on lines 96-97); a later matching button overwrites an
earlier one. -/
def wireIdxsAux (idx : Nat) (ok cancel : Int) : List Button → Int × Int
  | [] => (ok, cancel)
  | b :: bs =>
      wireIdxsAux (idx + 1)
        (if isOkButton b then (idx : Int) else ok)
        (if isCancelButton b then (idx : Int) else cancel) bs

/-- Final values of `okButtonIdx` and `cancelButtonIdx` after the loop. -/
def wireIdxs (buttons : List Button) : Int × Int :=
  wireIdxsAux 0 (-1) (-1) buttons

/-- `okButtonIdx` after the wiring loop. -/
def okButtonIdx (buttons : List Button) : Int := (wireIdxs buttons).1

/-- `cancelButtonIdx` after the wiring loop. -/
def cancelButtonIdx (buttons : List Button) : Int := (wireIdxs buttons).2

/-- The `{which, value}` object the promise resolves with. -/
structure DialogResult where
  which : Int
  value : String
deriving DecidableEq

/-- A user interaction that closes the dialog: activating the button with a
given index (its `onclick` handler of lines 108-111 fires, calls
`preventDefault`, and closes), or submitting the form, e.g. with the enter
key (the `onsubmit` handler of line 99 fires).  `typed` is the text standing
in the `#prompt` input at that moment. -/
inductive Interaction where
  | clickButton (idx : Nat) (typed : String)
  | submitForm (typed : String)
deriving DecidableEq

/-- The text in the prompt input at the moment the dialog is closed. -/
def interTyped : Interaction → String
  | .clickButton _ typed => typed
  | .submitForm typed => typed

/-- Outcome of the modal-display step: either the dialog is closed by one of
the wired handlers, or `dialog.showModal()` fails (throws / the host
dismisses the modal through a non-button path). -/
inductive ModalOutcome where
  | closed (i : Interaction)
  | failed
deriving DecidableEq

/-- The object passed to `dialog.close` by the handlers: `form.onsubmit`
(line 99) closes with `okButtonIdx`, a button's `onclick` (lines 108-111)
closes with that button's own index; both read the `#prompt` value only when
`prompt` is truthy, otherwise they pass `""`. -/
def closeValue (buttons : List Button) (prompt : Option String) :
    Interaction → DialogResult
  | .clickButton idx typed =>
      { which := (idx : Int), value := if jsTruthy prompt then typed else "" }
  | .submitForm typed =>
      { which := okButtonIdx buttons, value := if jsTruthy prompt then typed else "" }

/-- `dialog.showModal()` (line 116): resolves with the object the handlers
passed to `close`, or fails. -/
def showModalE (buttons : List Button) (prompt : Option String) :
    ModalOutcome → Except Unit DialogResult
  | .closed i => .ok (closeValue buttons prompt i)
  | .failed => .error ()

/-- The destructured parameter object of `notice` (lines 22-33).
`buttons = none` models a call that omits the field, in which case the JS
default parameter applies; `buttons = some bs` models an explicitly supplied
list (including an explicitly supplied empty list). -/
structure NoticeArgs where
  title : String
  icon : Option String
  msgs : List String
  prompt : Option String
  isError : Bool
  buttons : Option (List Button)

/-- A node id not occurring in the document, for the freshly created
`dialog` element. -/
def freshId (doc : List Nat) : Nat := doc.foldr max 0 + 1

/-- `notice` (lines 22-122).  Resolves the icon, assembles the markup,
appends the dialog node to the document, shows it modally and, in all cases
(the `finally` of line 120), removes the dialog node again.  A failure of
the modal step is caught (lines 117-119) and converted into the result
`{which: cancelButtonIdx, value: ""}`; it is not re-thrown.  The returned
triple is (resolution of the promise, the assembled `innerHTML`, the
document after the call). -/
def notice (args : NoticeArgs) (width iconSize : Nat) (env : ManifestResult)
    (outcome : ModalOutcome) (doc : List Nat) :
    (Except Unit DialogResult × String) × List Nat :=
  let ic := resolveIcon args.icon iconSize env
  let buttons := args.buttons.getD defaultButtons
  let html := dialogHTML args.title ic.1 args.msgs args.prompt args.isError
    buttons width ic.2
  let dlg := freshId doc
  let doc1 := doc ++ [dlg]
  let res : Except Unit DialogResult :=
    match showModalE buttons args.prompt outcome with
    | .ok r => .ok r
    | .error _ => .ok { which := cancelButtonIdx buttons, value := "" }
  ((res, html), doc1.erase dlg)

/-- The promise resolution of a `notice` call. -/
def noticeResult (args : NoticeArgs) (width iconSize : Nat)
    (env : ManifestResult) (outcome : ModalOutcome) (doc : List Nat) :
    Except Unit DialogResult :=
  (notice args width iconSize env outcome doc).1.1

/-- The `innerHTML` assembled by a `notice` call. -/
def noticeHTML (args : NoticeArgs) (width iconSize : Nat)
    (env : ManifestResult) (outcome : ModalOutcome) (doc : List Nat) : String :=
  (notice args width iconSize env outcome doc).1.2

/-- The document after a `notice` call. -/
def noticeDoc (args : NoticeArgs) (width iconSize : Nat)
    (env : ManifestResult) (outcome : ModalOutcome) (doc : List Nat) : List Nat :=
  (notice args width iconSize env outcome doc).2

/-- The argument object built by `warning` (lines 155-160): first label with
`type: "submit", variant: "primary"`, second with
`type: "button", variant: "warning"`.  An out-of-range JS index reads
`undefined`, which later prints as the text `undefined`. -/
def warningArgs (title msg : String) (buttons : List String) : NoticeArgs :=
  { title := title, icon := none, msgs := [msg], prompt := none,
    isError := false,
    buttons := some [
      { label := buttons.getD 0 "undefined", type := some "submit",
        variant := some "primary" },
      { label := buttons.getD 1 "undefined", type := some "button",
        variant := some "warning" }] }

/-- The argument object built by `prompt` (lines 162-167): the prompt
placeholder is set, the first label gets `type: "reset", variant: "primary"`
and the second `type: "submit", variant: "cta"`. -/
def promptArgs (title msg promptStr : String) (buttons : List String) : NoticeArgs :=
  { title := title, icon := none, msgs := [msg], prompt := some promptStr,
    isError := false,
    buttons := some [
      { label := buttons.getD 0 "undefined", type := some "reset",
        variant := some "primary" },
      { label := buttons.getD 1 "undefined", type := some "submit",
        variant := some "cta" }] }

/-- A minimal argument object used in concrete instances below: title `T`,
no icon, no messages, no prompt, not an error, with the given buttons
field. -/
def plainArgs (buttons : Option (List Button)) : NoticeArgs :=
  { title := "T", icon := none, msgs := [], prompt := none, isError := false,
    buttons := buttons }

/-- A minimal argument object requesting the `app-icon` sentinel. -/
def appIconArgs : NoticeArgs :=
  { title := "T", icon := some "app-icon", msgs := ["M"], prompt := none,
    isError := false, buttons := none }

/-- Two buttons that both qualify for `okButtonIdx` (both are
`type: "submit"`). -/
def twoSubmitButtons : List Button :=
  [{ label := "A", type := some "submit", variant := none },
   { label := "B", type := some "submit", variant := none }]

/-- Reference description of the overwrite semantics of the wiring loop:
the index of the last button in the list satisfying `p`, or -1 when no
button does. -/
def lastMatchIdx (p : Button → Bool) : List Button → Int
  | [] => -1
  | b :: bs =>
      if lastMatchIdx p bs = -1 then (if p b then 0 else -1)
      else lastMatchIdx p bs + 1

/-- Reference description of the first-match rule the specification claims:
the index of the first button satisfying `p`, or -1 when no button does. -/
def firstMatchIdx (p : Button → Bool) : List Button → Int
  | [] => -1
  | b :: bs =>
      if p b then 0
      else if firstMatchIdx p bs = -1 then -1 else firstMatchIdx p bs + 1

/-- Reference rendering of the footer: the button strings with an explicit
`","` between each pair of consecutive buttons. -/
def footerSeparated (idx : Nat) : List Button → String
  | [] => ""
  | [b] => renderButton idx b
  | b :: b2 :: bs => renderButton idx b ++ "," ++ footerSeparated (idx + 1) (b2 :: bs)

/-- Reference rendering of the message block: the message strings
concatenated with nothing in between. -/
def msgsConcat : List String → String
  | [] => ""
  | m :: ms => renderMsg m ++ msgsConcat ms

theorem lastMatchIdx_neg_one_or_nonneg (p : Button → Bool) (bs : List Button) :
    lastMatchIdx p bs = -1 ∨ 0 ≤ lastMatchIdx p bs := by
  induction bs with
  | nil => left; rfl
  | cons b bs ih =>
      by_cases h : lastMatchIdx p bs = -1
      · by_cases hb : p b
        · right; simp [lastMatchIdx, h, hb]
        · left; simp [lastMatchIdx, h, hb]
      · right
        rcases ih with h1 | h1
        · exact absurd h1 h
        · simp only [lastMatchIdx, if_neg h]
          omega

theorem wireIdxsAux_eq (bs : List Button) :
    ∀ (idx : Nat) (ok cancel : Int),
      wireIdxsAux idx ok cancel bs =
        ((if lastMatchIdx isOkButton bs = -1 then ok
          else (idx : Int) + lastMatchIdx isOkButton bs),
         (if lastMatchIdx isCancelButton bs = -1 then cancel
          else (idx : Int) + lastMatchIdx isCancelButton bs)) := by
  induction bs with
  | nil => intro idx ok cancel; simp [wireIdxsAux, lastMatchIdx]
  | cons b bs ih =>
      intro idx ok cancel
      rw [wireIdxsAux, ih]
      have hok := lastMatchIdx_neg_one_or_nonneg isOkButton bs
      have hcancel := lastMatchIdx_neg_one_or_nonneg isCancelButton bs
      refine Prod.ext ?_ ?_
      · by_cases h : lastMatchIdx isOkButton bs = -1
        · by_cases hb : isOkButton b <;> simp [lastMatchIdx, h, hb]
        · have h0 : 0 ≤ lastMatchIdx isOkButton bs := hok.resolve_left h
          simp only [lastMatchIdx, if_neg h]
          have hne : ¬ lastMatchIdx isOkButton bs + 1 = -1 := by omega
          simp only [if_neg hne]
          push_cast
          omega
      · by_cases h : lastMatchIdx isCancelButton bs = -1
        · by_cases hb : isCancelButton b <;> simp [lastMatchIdx, h, hb]
        · have h0 : 0 ≤ lastMatchIdx isCancelButton bs := hcancel.resolve_left h
          simp only [lastMatchIdx, if_neg h]
          have hne : ¬ lastMatchIdx isCancelButton bs + 1 = -1 := by omega
          simp only [if_neg hne]
          push_cast
          omega

theorem okButtonIdx_eq_lastMatch (bs : List Button) :
    okButtonIdx bs = lastMatchIdx isOkButton bs := by
  rw [okButtonIdx, wireIdxs, wireIdxsAux_eq]
  rcases lastMatchIdx_neg_one_or_nonneg isOkButton bs with h | h
  · simp [h]
  · have hne : ¬ lastMatchIdx isOkButton bs = -1 := by omega
    simp [hne]

theorem cancelButtonIdx_eq_lastMatch (bs : List Button) :
    cancelButtonIdx bs = lastMatchIdx isCancelButton bs := by
  rw [cancelButtonIdx, wireIdxs, wireIdxsAux_eq]
  rcases lastMatchIdx_neg_one_or_nonneg isCancelButton bs with h | h
  · simp [h]
  · have hne : ¬ lastMatchIdx isCancelButton bs = -1 := by omega
    simp [hne]

theorem footerButtonsHTML_eq_separated_aux (bs : List Button) :
    ∀ idx : Nat,
      jsArrayToString ((List.enumFrom idx bs).map fun p => renderButton p.1 p.2)
        = footerSeparated idx bs := by
  induction bs with
  | nil => intro idx; rfl
  | cons b bs ih =>
      intro idx
      cases bs with
      | nil => rfl
      | cons b2 bs2 =>
          have h := ih (idx + 1)
          simp only [List.enumFrom, List.map] at h ⊢
          rw [footerSeparated, ← h]
          rfl

theorem msgsHTML_eq_concat (msgs : List String) : msgsHTML msgs = msgsConcat msgs := by
  induction msgs with
  | nil => rfl
  | cons m ms ih =>
      simp only [msgsHTML, List.map, jsJoinEmpty, msgsConcat] at ih ⊢
      rw [ih]

theorem mem_le_foldr_max (doc : List Nat) : ∀ x ∈ doc, x ≤ doc.foldr max 0 := by
  induction doc with
  | nil => intro x hx; cases hx
  | cons d ds ih =>
      intro x hx
      rcases List.mem_cons.mp hx with hx | hx
      · subst hx
        exact le_max_left _ _
      · exact le_trans (ih x hx) (le_max_right _ _)

theorem freshId_not_mem (doc : List Nat) : freshId doc ∉ doc := by
  intro h
  have h1 := mem_le_foldr_max doc _ h
  rw [freshId] at h1
  omega

theorem append_erase_fresh (doc : List Nat) :
    (doc ++ [freshId doc]).erase (freshId doc) = doc := by
  rw [List.erase_append_right _ (freshId_not_mem doc)]
  simp

/-- Claim C5: each entry of the message list renders as a hyperlink whose
target and text are the message itself exactly when the message starts with
the four characters `http`, and as a plain paragraph holding the unchanged
message otherwise. -/
theorem claim_C5_renderMsg (msg : String) :
    ((∃ rest, msg.data = "http".data ++ rest) →
      renderMsg msg = "<a href=\"" ++ msg ++ "\">" ++ msg ++ "</a>")
    ∧ ((¬ ∃ rest, msg.data = "http".data ++ rest) →
      renderMsg msg = "<p>" ++ msg ++ "</p>") := by
  constructor
  · rintro ⟨rest, h⟩
    have ht : msg.data.take 4 = "http".data := by
      rw [h]
      rfl
    rw [renderMsg, if_pos ht]
  · intro h
    have ht : ¬ msg.data.take 4 = "http".data := by
      intro hc
      exact h ⟨msg.data.drop 4, by rw [← hc, List.take_append_drop]⟩
    rw [renderMsg, if_neg ht]

theorem claim_C5_renderMsg_witness :
    renderMsg "https://a" = "<a href=\"https://a\">https://a</a>"
    ∧ renderMsg "hi" = "<p>hi</p>" :=
  ⟨(claim_C5_renderMsg "https://a").1 ⟨"s://a".data, by decide⟩,
   (claim_C5_renderMsg "hi").2 (by
      rintro ⟨rest, h⟩
      have h' : ('h' :: 'i' :: ([] : List Char)) = 'h' :: 't' :: 't' :: 'p' :: rest := h
      simp at h')⟩

/-- Claim C10: the footer interpolates the mapped buttons array without an
explicit join, so JS array-to-string conversion applies and consecutive
rendered buttons are separated by a literal comma; the message list, by
contrast, is joined with the empty string and has no separator. -/
theorem claim_C10_footer_comma (bs : List Button) (msgs : List String) :
    footerButtonsHTML bs = footerSeparated 0 bs
    ∧ msgsHTML msgs = msgsConcat msgs :=
  ⟨footerButtonsHTML_eq_separated_aux bs 0, msgsHTML_eq_concat msgs⟩

/-- Claim C6: when the modal step fails (dismissal without any button), the
call resolves with `which` equal to the index of the last reset-type button,
-1 when there is none, and with the empty string as value. -/
theorem claim_C6_dismissal (args : NoticeArgs) (width iconSize : Nat)
    (env : ManifestResult) (doc : List Nat) :
    noticeResult args width iconSize env .failed doc =
      .ok { which := lastMatchIdx isCancelButton (args.buttons.getD defaultButtons),
            value := "" } := by
  rw [noticeResult, notice]
  simp [showModalE, cancelButtonIdx_eq_lastMatch]

/-- Claim C7: the promise never rejects: every outcome of the modal step
yields an `ok` resolution, and in particular a failing modal-display step is
converted into the default cancel result rather than propagated. -/
theorem claim_C7_no_reject (args : NoticeArgs) (width iconSize : Nat)
    (env : ManifestResult) (outcome : ModalOutcome) (doc : List Nat) :
    (∃ r, noticeResult args width iconSize env outcome doc = .ok r)
    ∧ (showModalE (args.buttons.getD defaultButtons) args.prompt outcome = .error () →
        noticeResult args width iconSize env outcome doc =
          .ok { which := cancelButtonIdx (args.buttons.getD defaultButtons),
                value := "" }) := by
  constructor
  · cases outcome with
    | closed i => exact ⟨_, rfl⟩
    | failed => exact ⟨_, rfl⟩
  · intro h
    cases outcome with
    | closed i => simp [showModalE] at h
    | failed => rfl

theorem claim_C7_no_reject_witness :
    noticeResult (plainArgs none) 360 14 .noIcon .failed []
      = .ok { which := -1, value := "" } :=
  (claim_C7_no_reject (plainArgs none) 360 14 .noIcon .failed []).2 rfl

/-- Claim C8: whatever the outcome, the dialog node appended to the document
is removed again before the call returns; the document is unchanged. -/
theorem claim_C8_doc_restored (args : NoticeArgs) (width iconSize : Nat)
    (env : ManifestResult) (outcome : ModalOutcome) (doc : List Nat) :
    noticeDoc args width iconSize env outcome doc = doc :=
  append_erase_fresh doc

/-- Claim C9: in `warning` the Cancel button (index 0) carries `type:
"submit"` and OK (index 1) carries `type: "button"`; clicking OK resolves
directly through its own click handler with which = 1 and the empty value
(no prompt is set), while the form-submission path is wired to index 0. -/
theorem claim_C9_warning (title msg typed : String) (width iconSize : Nat)
    (env : ManifestResult) (doc : List Nat) :
    (warningArgs title msg ["Cancel", "OK"]).buttons =
      some [{ label := "Cancel", type := some "submit", variant := some "primary" },
            { label := "OK", type := some "button", variant := some "warning" }]
    ∧ noticeResult (warningArgs title msg ["Cancel", "OK"]) width iconSize env
        (.closed (.clickButton 1 typed)) doc = .ok { which := 1, value := "" }
    ∧ okButtonIdx
        [{ label := "Cancel", type := some "submit", variant := some "primary" },
         { label := "OK", type := some "button", variant := some "warning" }] = 0 :=
  ⟨rfl, rfl, by decide⟩

/-- Claim C1 fails as stated: an explicitly supplied empty buttons list does
not fall back to the default Close button: the footer renders empty and form
submission resolves with which = -1, unlike a call that omits the field,
which does get the default button (submit-wired at index 0). -/
theorem claim_C1_counterexample :
    footerButtonsHTML [] = ""
    ∧ footerButtonsHTML defaultButtons ≠ ""
    ∧ noticeResult (plainArgs (some [])) 360 14 .noIcon
        (.closed (.submitForm "")) [] = .ok { which := -1, value := "" }
    ∧ noticeResult (plainArgs none) 360 14 .noIcon
        (.closed (.submitForm "")) [] = .ok { which := 0, value := "" } := by
  refine ⟨rfl, ?_, rfl, rfl⟩
  decide

/-- Claim C1 amended: the default single submit-role Close button applies
exactly when the `buttons` field is omitted (JS `undefined`); a supplied
empty list renders no buttons and wires no submit index, so form submission
resolves with which = -1. -/
theorem claim_C1_amended (args : NoticeArgs) (width iconSize : Nat)
    (env : ManifestResult) (outcome : ModalOutcome) (doc : List Nat)
    (typed : String) :
    (args.buttons = none →
      notice args width iconSize env outcome doc =
        notice { args with buttons := some defaultButtons } width iconSize env
          outcome doc)
    ∧ (args.buttons = some [] →
        noticeResult args width iconSize env (.closed (.submitForm typed)) doc =
          .ok { which := -1, value := if jsTruthy args.prompt then typed else "" }) := by
  constructor
  · intro h
    rw [notice, notice]
    simp [h]
  · intro h
    rw [noticeResult, notice]
    simp [h, showModalE, closeValue, okButtonIdx, wireIdxs, wireIdxsAux]

theorem claim_C1_amended_witness :
    notice (plainArgs none) 360 14 .noIcon .failed []
      = notice { plainArgs none with buttons := some defaultButtons } 360 14
          .noIcon .failed []
    ∧ noticeResult (plainArgs (some [])) 360 14 .noIcon
        (.closed (.submitForm "x")) [] = .ok { which := -1, value := "" } :=
  ⟨(claim_C1_amended (plainArgs none) 360 14 .noIcon .failed [] "x").1 rfl,
   (claim_C1_amended (plainArgs (some [])) 360 14 .noIcon
      (.closed (.submitForm "x")) [] "x").2 rfl⟩

/-- Claim C2 fails as stated: when the manifest lookup for the `app-icon`
sentinel fails, the sentinel string is left in place, it is truthy, and the
header therefore renders an icon image element with src `app-icon`. -/
theorem claim_C2_counterexample :
    resolveIcon (some "app-icon") 14 .failure = (some "app-icon", 14)
    ∧ headerIconHTML (resolveIcon (some "app-icon") 14 .failure).1
        = "<img src=\"app-icon\" />" :=
  ⟨rfl, by decide⟩

/-- Claim C2 amended: when the icon is the sentinel and the manifest lookup
fails, the error is swallowed and the call still resolves, but the header is
not icon-free: the sentinel remains truthy and renders as an icon image
element with src `app-icon`. -/
theorem claim_C2_amended (args : NoticeArgs) (width iconSize : Nat)
    (outcome : ModalOutcome) (doc : List Nat) :
    args.icon = some "app-icon" →
      (∃ r, noticeResult args width iconSize .failure outcome doc = .ok r)
      ∧ headerIconHTML (resolveIcon args.icon iconSize .failure).1
          = "<img src=\"app-icon\" />" := by
  intro h
  constructor
  · cases outcome with
    | closed i => exact ⟨_, rfl⟩
    | failed => exact ⟨_, rfl⟩
  · have h1 : (resolveIcon (some "app-icon") iconSize .failure).1 = some "app-icon" := rfl
    rw [h, h1]
    decide

theorem claim_C2_amended_witness :
    (∃ r, noticeResult appIconArgs 360 14 .failure .failed [] = .ok r)
    ∧ headerIconHTML (resolveIcon appIconArgs.icon 14 .failure).1
        = "<img src=\"app-icon\" />" :=
  claim_C2_amended appIconArgs 360 14 .failed [] rfl

/-- Claim C3 fails as stated: with two submit-type buttons, form submission
resolves with the index of the last of them (1), although the first
submit-role button sits at index 0. -/
theorem claim_C3_counterexample :
    firstMatchIdx isOkButton twoSubmitButtons = 0
    ∧ noticeResult (plainArgs (some twoSubmitButtons)) 360 14 .noIcon
        (.closed (.submitForm "")) [] = .ok { which := 1, value := "" } :=
  ⟨by decide, rfl⟩

/-- Claim C3 amended: form submission resolves with which equal to the index
of the last button whose type is submit or whose variant is cta (-1 when no
button qualifies), and with value equal to the live input when a prompt was
requested, else the empty string; when several buttons qualify, the one
encountered last wins. -/
theorem claim_C3_amended (args : NoticeArgs) (width iconSize : Nat)
    (env : ManifestResult) (doc : List Nat) (typed : String) :
    noticeResult args width iconSize env (.closed (.submitForm typed)) doc =
      .ok { which := lastMatchIdx isOkButton (args.buttons.getD defaultButtons),
            value := if jsTruthy args.prompt then typed else "" } := by
  rw [noticeResult, notice]
  simp [showModalE, closeValue, okButtonIdx_eq_lastMatch]

/-- Claim C4 fails as stated: in the prompt dialog, clicking the reset-role
Cancel button (index 0) with `Bob` typed into the input resolves with value
`Bob`, not with the empty string. -/
theorem claim_C4_counterexample :
    noticeResult (promptArgs "T" "M" "Name" ["Cancel", "OK"]) 360 14 .noIcon
        (.closed (.clickButton 0 "Bob")) [] = .ok { which := 0, value := "Bob" }
    ∧ "Bob" ≠ "" :=
  ⟨rfl, by decide⟩

/-- Claim C4 amended: value carries the live input whenever a prompt was
requested and the dialog is closed by any button click or by form submission
(not only via the submit-role button); value is the empty string when no
prompt was requested, and always on the dismissal path. -/
theorem claim_C4_amended (args : NoticeArgs) (width iconSize : Nat)
    (env : ManifestResult) (doc : List Nat) (i : Interaction) :
    (∃ r, noticeResult args width iconSize env (.closed i) doc = .ok r
      ∧ r.value = (if jsTruthy args.prompt then interTyped i else ""))
    ∧ (∃ r, noticeResult args width iconSize env .failed doc = .ok r
      ∧ r.value = "") := by
  constructor
  · cases i with
    | clickButton idx typed => exact ⟨_, rfl, rfl⟩
    | submitForm typed => exact ⟨_, rfl, rfl⟩
  · exact ⟨_, rfl, rfl⟩

